import Mathlib

/-
Verification of the secwebcam motion-detection core (src/secwebcam.py).

The embedding models the single-channel intensity images the code obtains
via cvtColor as grids of natural-number pixel values, and the main loop
(lines 187-230 of the source) as a step function on an explicit state
record.  External collaborators (camera, video writer, disk probe, log)
are out of scope per the design document; only their in-memory effects on
the core state are modelled.
-/

namespace Secwebcam

/-- A frame after grayscale conversion: rows of pixel intensities. -/
structure Frame where
  rows : List (List Nat)
deriving DecidableEq

/-- Height of a frame, as read from frame1.shape in framediff (line 136). -/
def Frame.h (f : Frame) : Nat := f.rows.length

/-- Width of a frame, as read from frame1.shape in framediff (line 136). -/
def Frame.w (f : Frame) : Nat := (f.rows.headD []).length

/-- Per-row sum of cv2.subtract values: cv2.subtract on uint8 images is
saturating subtraction, clamping negative differences to 0, which on
natural numbers is exactly truncated subtraction. -/
def satDiffRow (r1 r2 : List Nat) : Nat :=
  ((r1.zip r2).map (fun p => p.1 - p.2)).sum

/-- Sum over all rows of the saturating per-pixel differences: the value
np.sum(cv2.subtract(frame1, frame2)) computed at line 137. -/
def sumDiffRows (l1 l2 : List (List Nat)) : Nat :=
  ((l1.zip l2).map (fun p => satDiffRow p.1 p.2)).sum

/-- The summed difference of two frames (line 135 and line 137). -/
def sumDiff (f1 f2 : Frame) : Nat := sumDiffRows f1.rows f2.rows

/-- Total intensity of a frame (sum of all pixel values). -/
def intensitySum (f : Frame) : Nat := (f.rows.map List.sum).sum

/-- The value computed at line 138, diff=int(diff/((h/2)*(w/2))), for a
frame of nonzero area: real division by (h/2)*(w/2) = h*w/4 followed by
truncation toward zero of a nonnegative quantity, which equals the floor
of 4*sum/(h*w), i.e. natural-number division. -/
def framediffVal (f1 f2 : Frame) : Nat :=
  (4 * sumDiff f1 f2) / (f1.h * f1.w)

/-- Failure modes of the differencer.  The design document names an
InvalidFrameError that a guard should raise on zero-area frames; the
source has no such guard, so the only failure the code can exhibit is the
fault at the division itself. -/
inductive DiffError
  | invalidFrame
  | divisionFault
deriving DecidableEq

/-- framediff (lines 132-140) with its failure behaviour: when the frame
area is zero the normalizer (h/2)*(w/2) is zero and the unguarded division
at line 138 faults; otherwise the score is returned. -/
def framediff (f1 f2 : Frame) : Except DiffError Nat :=
  if f1.h * f1.w = 0 then .error .divisionFault
  else .ok (framediffVal f1 f2)

/-- Modelled from the claim wording for C9: the summed difference divided,
with truncating integer division, by the product of the half-height and
half-width taken as integers. -/
def framediffClaimed (f1 f2 : Frame) : Nat :=
  sumDiff f1 f2 / ((f1.h / 2) * (f1.w / 2))

/-- Static configuration (lines 66-76; thresholdframes is clamped to at
least 1 at lines 182-183 before the loop starts). -/
structure Config where
  maxframes : Nat
  threshold : Nat
  thresholdframes : Nat
  maxsavedframes : Nat
deriving DecidableEq

/-- The mutable state of the main loop.  The flushed field is a ghost
record of the frame lists handed to the video writer by savetofile, in
order; the writer itself is an external collaborator. -/
structure MState where
  recording : Bool
  savedframes : List Frame
  quietlen : Nat
  framebuffer : List Frame
  cooldown : Nat
  thresholdframecount : Nat
  flushed : List (List Frame)
deriving DecidableEq

/-- savetofile (lines 142-169): hands savedframes to the video writer and
clears the list.  On an empty list the code crashes with an IndexError at
line 158 (savedframes[0].shape), modelled as none.  The disk-space probe
and the writer are external collaborators, modelled as always writable. -/
def savetofile (s : MState) : Option MState :=
  match s.savedframes with
  | [] => none
  | _ :: _ => some { s with savedframes := [],
                            flushed := s.flushed ++ [s.savedframes] }

/-- Lines 193-197: threshold counting while not recording. -/
def step1 (cfg : Config) (score : Nat) (s : MState) : MState :=
  if s.recording = false ∧ s.thresholdframecount < cfg.thresholdframes ∧
      cfg.threshold ≤ score then
    { s with thresholdframecount := s.thresholdframecount + 1 }
  else if s.recording = false ∧ score < cfg.threshold then
    { s with thresholdframecount := 0 }
  else s

/-- Lines 198-205: start recording and seed the recording buffer with the
whole frame buffer. -/
def step2 (cfg : Config) (s : MState) : MState :=
  if s.recording = false ∧ cfg.maxframes ≤ s.cooldown ∧
      cfg.thresholdframes ≤ s.thresholdframecount then
    { s with savedframes := s.savedframes ++ s.framebuffer,
             thresholdframecount := 0,
             recording := true }
  else s

/-- Lines 206-208: append the current frame while recording. -/
def step3 (cfg : Config) (frame : Frame) (s : MState) : MState :=
  if s.recording = true ∧ s.quietlen < cfg.maxframes then
    { s with savedframes := s.savedframes ++ [frame] }
  else s

/-- Lines 209-214: quiet-counter update while recording. -/
def step4 (cfg : Config) (score : Nat) (s : MState) : MState :=
  if s.recording = true ∧ cfg.threshold ≤ score ∧ 0 < s.quietlen then
    { s with quietlen := 0 }
  else if s.recording = true ∧ score < cfg.threshold then
    { s with quietlen := s.quietlen + 1 }
  else s

/-- Lines 215-221: stop recording and reset the cooldown counter.  The
guard quietlen > maxframes - 1 is evaluated over Python integers, hence
the cast to Int. -/
def step5 (cfg : Config) (s : MState) : MState :=
  if (cfg.maxframes : Int) - 1 < (s.quietlen : Int) ∧ s.recording = true then
    { s with recording := false, cooldown := 0 }
  else s

/-- Lines 222-223: cooldown advance while not recording. -/
def step6 (cfg : Config) (s : MState) : MState :=
  if s.recording = false ∧ s.cooldown < cfg.maxframes then
    { s with cooldown := s.cooldown + 1 }
  else s

/-- Lines 225-227: rotate the ring buffer, evicting the oldest frame and
inserting the newest at the tail. -/
def step7 (frame : Frame) (s : MState) : MState :=
  { s with framebuffer := s.framebuffer.tail ++ [frame] }

/-- Lines 193-227 of the main loop body, with the (repeatedly computed,
always identical) framediff value abstracted as the score argument. -/
def tickMain (cfg : Config) (score : Nat) (frame : Frame) (s : MState) : MState :=
  step7 frame (step6 cfg (step5 cfg (step4 cfg score
    (step3 cfg frame (step2 cfg (step1 cfg score s))))))

/-- The state reached within a tick right after the stop rule of lines
215-221 has been evaluated (before the cooldown advance of lines 222-223). -/
def afterStop (cfg : Config) (score : Nat) (frame : Frame) (s : MState) : MState :=
  step5 cfg (step4 cfg score (step3 cfg frame (step2 cfg (step1 cfg score s))))

/-- Lines 229-230: size-triggered flush, calling savetofile when the
recording buffer length exceeds maxsavedframes - 1 (Python integers). -/
def flushIfNeeded (cfg : Config) (s : MState) : Option MState :=
  if (cfg.maxsavedframes : Int) - 1 < (s.savedframes.length : Int) then
    savetofile s
  else some s

/-- The in-memory effect of the size-triggered flush as a total function;
it agrees with flushIfNeeded whenever maxsavedframes is at least 1
(theorem flushIfNeeded_eq below). -/
def flushTotal (cfg : Config) (s : MState) : MState :=
  if (cfg.maxsavedframes : Int) - 1 < (s.savedframes.length : Int) then
    { s with savedframes := [], flushed := s.flushed ++ [s.savedframes] }
  else s

/-- One full loop iteration given the motion score: lines 193-230.  none
models a crash inside savetofile. -/
def tickScore (cfg : Config) (score : Nat) (frame : Frame) (s : MState) :
    Option MState :=
  flushIfNeeded cfg (tickMain cfg score frame s)

/-- Total tick semantics; agrees with tickScore whenever maxsavedframes is
at least 1 (theorem tickScore_eq below). -/
def tickT (cfg : Config) (score : Nat) (frame : Frame) (s : MState) : MState :=
  flushTotal cfg (tickMain cfg score frame s)

/-- The second argument of every framediff call in the main loop:
framebuffer[maxframes-1] (lines 194, 196, 210, 213). -/
def baseline (cfg : Config) (s : MState) : Frame :=
  s.framebuffer.getD (cfg.maxframes - 1) (Frame.mk [])

/-- Modelled from the spec for C1: the claimed comparison baseline, the
current oldest buffered frame (the head of the ring buffer). -/
def claimedBaseline (s : MState) : Frame :=
  s.framebuffer.headD (Frame.mk [])

/-- One full loop iteration on a captured frame: the score consumed by the
state machine is framediff of the new frame against framebuffer[maxframes-1]. -/
def tick (cfg : Config) (frame : Frame) (s : MState) : Option MState :=
  tickScore cfg (framediffVal frame (baseline cfg s)) frame s

/-- Modelled from the spec for C1: the loop as it would behave if the
baseline were the oldest buffered frame. -/
def tickClaimed (cfg : Config) (frame : Frame) (s : MState) : Option MState :=
  tickScore cfg (framediffVal frame (claimedBaseline s)) frame s

/-- Iterated loop on a list of captured frames. -/
def run (cfg : Config) (s : MState) : List Frame → Option MState
  | [] => some s
  | f :: l =>
    match tick cfg f s with
    | none => none
    | some s2 => run cfg s2 l

/-- Iterated loop on a list of (score, frame) inputs. -/
def runScores (cfg : Config) (s : MState) : List (Nat × Frame) → Option MState
  | [] => some s
  | p :: l =>
    match tickScore cfg p.1 p.2 s with
    | none => none
    | some s2 => runScores cfg s2 l

/-- Total variant of runScores, iterating tickT. -/
def runT (cfg : Config) (s : MState) : List (Nat × Frame) → MState
  | [] => s
  | p :: l => runT cfg (tickT cfg p.1 p.2 s) l

/-- The state right before the first loop iteration (lines 86-89, 117-123,
179-180): not recording, empty recording buffer, all counters at their
initial values (cooldown starts at maxframes), and the frame buffer
pre-filled with the first maxframes captured frames. -/
def initState (cfg : Config) (initFrames : List Frame) : MState :=
  { recording := false
    savedframes := []
    quietlen := 0
    framebuffer := initFrames
    cooldown := cfg.maxframes
    thresholdframecount := 0
    flushed := [] }

/-- A one-pixel frame of the given intensity, for concrete runs. -/
def fr (x : Nat) : Frame := Frame.mk [[x]]

/-- Concrete configuration with a two-frame ring buffer. -/
def cfgA : Config := { maxframes := 2, threshold := 10, thresholdframes := 1, maxsavedframes := 100 }

/-- Concrete configuration with a one-frame ring buffer. -/
def cfgB : Config := { maxframes := 1, threshold := 10, thresholdframes := 1, maxsavedframes := 100 }

/-- Concrete configuration whose flush cap is a single frame. -/
def cfgC : Config := { maxframes := 1, threshold := 10, thresholdframes := 1, maxsavedframes := 1 }

/-- A concrete recording state used by witnesses. -/
def sRec : MState :=
  { recording := true, savedframes := [fr 1], quietlen := 0,
    framebuffer := [fr 1], cooldown := 1, thresholdframecount := 0,
    flushed := [] }

/-- A concrete recording state holding one saved frame, used by the flush
witness. -/
def sRec2 : MState :=
  { recording := true, savedframes := [fr 2], quietlen := 0,
    framebuffer := [fr 2], cooldown := 1, thresholdframecount := 0,
    flushed := [] }

end Secwebcam

namespace Secwebcam

theorem step1_recording (cfg : Config) (sc : Nat) (s : MState) :
    (step1 cfg sc s).recording = s.recording := by
  unfold step1; split_ifs <;> rfl

theorem step1_savedframes (cfg : Config) (sc : Nat) (s : MState) :
    (step1 cfg sc s).savedframes = s.savedframes := by
  unfold step1; split_ifs <;> rfl

theorem step1_quietlen (cfg : Config) (sc : Nat) (s : MState) :
    (step1 cfg sc s).quietlen = s.quietlen := by
  unfold step1; split_ifs <;> rfl

theorem step1_framebuffer (cfg : Config) (sc : Nat) (s : MState) :
    (step1 cfg sc s).framebuffer = s.framebuffer := by
  unfold step1; split_ifs <;> rfl

theorem step1_cooldown (cfg : Config) (sc : Nat) (s : MState) :
    (step1 cfg sc s).cooldown = s.cooldown := by
  unfold step1; split_ifs <;> rfl

theorem step1_flushed (cfg : Config) (sc : Nat) (s : MState) :
    (step1 cfg sc s).flushed = s.flushed := by
  unfold step1; split_ifs <;> rfl

theorem step2_quietlen (cfg : Config) (s : MState) :
    (step2 cfg s).quietlen = s.quietlen := by
  unfold step2; split_ifs <;> rfl

theorem step2_framebuffer (cfg : Config) (s : MState) :
    (step2 cfg s).framebuffer = s.framebuffer := by
  unfold step2; split_ifs <;> rfl

theorem step2_cooldown (cfg : Config) (s : MState) :
    (step2 cfg s).cooldown = s.cooldown := by
  unfold step2; split_ifs <;> rfl

theorem step2_flushed (cfg : Config) (s : MState) :
    (step2 cfg s).flushed = s.flushed := by
  unfold step2; split_ifs <;> rfl

theorem step3_recording (cfg : Config) (f : Frame) (s : MState) :
    (step3 cfg f s).recording = s.recording := by
  unfold step3; split_ifs <;> rfl

theorem step3_quietlen (cfg : Config) (f : Frame) (s : MState) :
    (step3 cfg f s).quietlen = s.quietlen := by
  unfold step3; split_ifs <;> rfl

theorem step3_framebuffer (cfg : Config) (f : Frame) (s : MState) :
    (step3 cfg f s).framebuffer = s.framebuffer := by
  unfold step3; split_ifs <;> rfl

theorem step3_cooldown (cfg : Config) (f : Frame) (s : MState) :
    (step3 cfg f s).cooldown = s.cooldown := by
  unfold step3; split_ifs <;> rfl

theorem step3_thresholdframecount (cfg : Config) (f : Frame) (s : MState) :
    (step3 cfg f s).thresholdframecount = s.thresholdframecount := by
  unfold step3; split_ifs <;> rfl

theorem step3_flushed (cfg : Config) (f : Frame) (s : MState) :
    (step3 cfg f s).flushed = s.flushed := by
  unfold step3; split_ifs <;> rfl

theorem step4_recording (cfg : Config) (sc : Nat) (s : MState) :
    (step4 cfg sc s).recording = s.recording := by
  unfold step4; split_ifs <;> rfl

theorem step4_savedframes (cfg : Config) (sc : Nat) (s : MState) :
    (step4 cfg sc s).savedframes = s.savedframes := by
  unfold step4; split_ifs <;> rfl

theorem step4_framebuffer (cfg : Config) (sc : Nat) (s : MState) :
    (step4 cfg sc s).framebuffer = s.framebuffer := by
  unfold step4; split_ifs <;> rfl

theorem step4_cooldown (cfg : Config) (sc : Nat) (s : MState) :
    (step4 cfg sc s).cooldown = s.cooldown := by
  unfold step4; split_ifs <;> rfl

theorem step4_thresholdframecount (cfg : Config) (sc : Nat) (s : MState) :
    (step4 cfg sc s).thresholdframecount = s.thresholdframecount := by
  unfold step4; split_ifs <;> rfl

theorem step4_flushed (cfg : Config) (sc : Nat) (s : MState) :
    (step4 cfg sc s).flushed = s.flushed := by
  unfold step4; split_ifs <;> rfl

theorem step5_savedframes (cfg : Config) (s : MState) :
    (step5 cfg s).savedframes = s.savedframes := by
  unfold step5; split_ifs <;> rfl

theorem step5_quietlen (cfg : Config) (s : MState) :
    (step5 cfg s).quietlen = s.quietlen := by
  unfold step5; split_ifs <;> rfl

theorem step5_framebuffer (cfg : Config) (s : MState) :
    (step5 cfg s).framebuffer = s.framebuffer := by
  unfold step5; split_ifs <;> rfl

theorem step5_thresholdframecount (cfg : Config) (s : MState) :
    (step5 cfg s).thresholdframecount = s.thresholdframecount := by
  unfold step5; split_ifs <;> rfl

theorem step5_flushed (cfg : Config) (s : MState) :
    (step5 cfg s).flushed = s.flushed := by
  unfold step5; split_ifs <;> rfl

theorem step6_recording (cfg : Config) (s : MState) :
    (step6 cfg s).recording = s.recording := by
  unfold step6; split_ifs <;> rfl

theorem step6_savedframes (cfg : Config) (s : MState) :
    (step6 cfg s).savedframes = s.savedframes := by
  unfold step6; split_ifs <;> rfl

theorem step6_quietlen (cfg : Config) (s : MState) :
    (step6 cfg s).quietlen = s.quietlen := by
  unfold step6; split_ifs <;> rfl

theorem step6_framebuffer (cfg : Config) (s : MState) :
    (step6 cfg s).framebuffer = s.framebuffer := by
  unfold step6; split_ifs <;> rfl

theorem step6_thresholdframecount (cfg : Config) (s : MState) :
    (step6 cfg s).thresholdframecount = s.thresholdframecount := by
  unfold step6; split_ifs <;> rfl

theorem step6_flushed (cfg : Config) (s : MState) :
    (step6 cfg s).flushed = s.flushed := by
  unfold step6; split_ifs <;> rfl

theorem step7_recording (f : Frame) (s : MState) :
    (step7 f s).recording = s.recording := rfl

theorem step7_savedframes (f : Frame) (s : MState) :
    (step7 f s).savedframes = s.savedframes := rfl

theorem step7_quietlen (f : Frame) (s : MState) :
    (step7 f s).quietlen = s.quietlen := rfl

theorem step7_cooldown (f : Frame) (s : MState) :
    (step7 f s).cooldown = s.cooldown := rfl

theorem step7_thresholdframecount (f : Frame) (s : MState) :
    (step7 f s).thresholdframecount = s.thresholdframecount := rfl

theorem step7_flushed (f : Frame) (s : MState) :
    (step7 f s).flushed = s.flushed := rfl

theorem flushTotal_recording (cfg : Config) (s : MState) :
    (flushTotal cfg s).recording = s.recording := by
  unfold flushTotal; split_ifs <;> rfl

theorem flushTotal_quietlen (cfg : Config) (s : MState) :
    (flushTotal cfg s).quietlen = s.quietlen := by
  unfold flushTotal; split_ifs <;> rfl

theorem flushTotal_cooldown (cfg : Config) (s : MState) :
    (flushTotal cfg s).cooldown = s.cooldown := by
  unfold flushTotal; split_ifs <;> rfl

theorem flushTotal_thresholdframecount (cfg : Config) (s : MState) :
    (flushTotal cfg s).thresholdframecount = s.thresholdframecount := by
  unfold flushTotal; split_ifs <;> rfl

theorem flushTotal_framebuffer (cfg : Config) (s : MState) :
    (flushTotal cfg s).framebuffer = s.framebuffer := by
  unfold flushTotal; split_ifs <;> rfl

end Secwebcam

namespace Secwebcam

theorem step1_of_rec (cfg : Config) (sc : Nat) (s : MState)
    (h : s.recording = true) : step1 cfg sc s = s := by
  unfold step1; simp [h]

theorem step2_of_rec (cfg : Config) (s : MState)
    (h : s.recording = true) : step2 cfg s = s := by
  unfold step2; simp [h]

theorem step3_of_idle (cfg : Config) (f : Frame) (s : MState)
    (h : s.recording = false) : step3 cfg f s = s := by
  unfold step3; simp [h]

theorem step4_of_idle (cfg : Config) (sc : Nat) (s : MState)
    (h : s.recording = false) : step4 cfg sc s = s := by
  unfold step4; simp [h]

theorem step5_of_idle (cfg : Config) (s : MState)
    (h : s.recording = false) : step5 cfg s = s := by
  unfold step5; simp [h]

theorem step5_of_quiet (cfg : Config) (s : MState)
    (h : s.quietlen < cfg.maxframes) : step5 cfg s = s := by
  unfold step5
  rw [if_neg]
  intro hc
  omega

theorem step6_of_rec (cfg : Config) (s : MState)
    (h : s.recording = true) : step6 cfg s = s := by
  unfold step6; simp [h]

theorem step6_of_cool (cfg : Config) (s : MState)
    (h : cfg.maxframes ≤ s.cooldown) : step6 cfg s = s := by
  unfold step6
  rw [if_neg]
  intro hc
  omega

theorem savetofile_of_ne_nil (s : MState) (h : s.savedframes ≠ []) :
    savetofile s = some { s with savedframes := [],
                                 flushed := s.flushed ++ [s.savedframes] } := by
  unfold savetofile
  cases hsf : s.savedframes with
  | nil => exact absurd hsf h
  | cons a l => simp [hsf]

theorem flushIfNeeded_eq (cfg : Config) (s : MState)
    (hms : 1 ≤ cfg.maxsavedframes) :
    flushIfNeeded cfg s = some (flushTotal cfg s) := by
  unfold flushIfNeeded flushTotal
  split_ifs with h
  · refine savetofile_of_ne_nil s ?_
    intro hnil
    rw [hnil] at h
    simp at h
    omega
  · rfl

theorem tickScore_eq (cfg : Config) (sc : Nat) (f : Frame) (s : MState)
    (hms : 1 ≤ cfg.maxsavedframes) :
    tickScore cfg sc f s = some (tickT cfg sc f s) := by
  unfold tickScore tickT
  exact flushIfNeeded_eq cfg _ hms

theorem runScores_eq (cfg : Config) (hms : 1 ≤ cfg.maxsavedframes) :
    ∀ (l : List (Nat × Frame)) (s : MState),
      runScores cfg s l = some (runT cfg s l) := by
  intro l
  induction l with
  | nil => intro s; rfl
  | cons p t ih =>
    intro s
    unfold runScores runT
    rw [tickScore_eq cfg p.1 p.2 s hms]
    exact ih _

end Secwebcam

namespace Secwebcam

theorem getD_length_sub_one {α : Type} (l : List α) (d : α) :
    l.getD (l.length - 1) d = l.getLastD d := by
  rw [List.getD_eq_getElem?_getD, ← List.getLast?_eq_getElem?,
    List.getLastD_eq_getLast?]

/-- C1 counterexample: with a two-frame ring buffer holding intensities 0
(oldest) and 100 (newest) and a new frame of intensity 50, the loop scores
the new frame against the newest buffered frame (score 0, below threshold,
nothing happens), whereas scoring against the oldest buffered frame (score
200) would start a recording: the two loop behaviours differ, so the
baseline consumed by the state machine is not the oldest buffered frame. -/
theorem C1_counterexample :
    tick cfgA (fr 50) (initState cfgA [fr 0, fr 100]) ≠
      tickClaimed cfgA (fr 50) (initState cfgA [fr 0, fr 100]) := by decide

/-- C1 amended: on every tick the score consumed by the state machine is
framediff of the newest captured frame against framebuffer[maxframes-1],
which under the ring-buffer invariant (buffer length = maxframes ≥ 1) is
the most recently inserted buffered frame, not the oldest; this baseline
still slides every tick as the buffer rotates. -/
theorem C1_newest_baseline (cfg : Config) (f : Frame) (s : MState)
    (hm : 1 ≤ cfg.maxframes) (hlen : s.framebuffer.length = cfg.maxframes) :
    tick cfg f s =
      tickScore cfg (framediffVal f (s.framebuffer.getLastD (Frame.mk []))) f s := by
  unfold tick baseline
  rw [← hlen, getD_length_sub_one]

/-- C1 witness: the amended baseline equation at a concrete state. -/
theorem C1_newest_baseline_witness :
    1 ≤ cfgA.maxframes ∧
    (initState cfgA [fr 0, fr 100]).framebuffer.length = cfgA.maxframes ∧
    tick cfgA (fr 50) (initState cfgA [fr 0, fr 100]) =
      tickScore cfgA
        (framediffVal (fr 50)
          ((initState cfgA [fr 0, fr 100]).framebuffer.getLastD (Frame.mk [])))
        (fr 50) (initState cfgA [fr 0, fr 100]) :=
  ⟨by decide, by decide,
   C1_newest_baseline cfgA (fr 50) (initState cfgA [fr 0, fr 100])
     (by decide) (by decide)⟩

/-- C2 counterexample: with maxframes = 1, after a first recording starts
and stops without being flushed, the recording buffer still holds three
frames; on the very next start transition (third tick) the buffer is not
empty before being seeded, and its first maxframes entries (intensity 0)
differ from the ring-buffer contents immediately prior (intensity 100). -/
theorem C2_counterexample :
    run cfgB (initState cfgB [fr 0]) [fr 100, fr 100] =
      some { recording := false, savedframes := [fr 0, fr 100, fr 100],
             quietlen := 1, framebuffer := [fr 100], cooldown := 1,
             thresholdframecount := 0, flushed := [] } ∧
    tick cfgB (fr 200)
      { recording := false, savedframes := [fr 0, fr 100, fr 100],
        quietlen := 1, framebuffer := [fr 100], cooldown := 1,
        thresholdframecount := 0, flushed := [] } =
      some { recording := true, savedframes := [fr 0, fr 100, fr 100, fr 100],
             quietlen := 0, framebuffer := [fr 200], cooldown := 1,
             thresholdframecount := 0, flushed := [] } ∧
    ([fr 0, fr 100, fr 100, fr 100].take cfgB.maxframes ≠ [fr 100]) := by decide

/-- C2 amended: when the start transition fires, the full ring-buffer
contents are appended, oldest first, at the current end of the recording
buffer; in particular, when the recording buffer is empty immediately
before that tick (as on the first start, or after a flush), its first
maxframes entries equal the ring-buffer contents immediately prior. -/
theorem C2_preroll_of_empty (cfg : Config) (sc : Nat) (f : Frame) (s : MState)
    (h0 : s.recording = false) (h1 : (tickMain cfg sc f s).recording = true)
    (hempty : s.savedframes = [])
    (hlen : s.framebuffer.length = cfg.maxframes) :
    (tickMain cfg sc f s).savedframes.take cfg.maxframes = s.framebuffer := by
  unfold tickMain at h1 ⊢
  rw [step7_savedframes, step6_savedframes, step5_savedframes, step4_savedframes]
  rw [step7_recording, step6_recording] at h1
  by_cases hstart : (step1 cfg sc s).recording = false ∧
      cfg.maxframes ≤ (step1 cfg sc s).cooldown ∧
      cfg.thresholdframes ≤ (step1 cfg sc s).thresholdframecount
  · have hs2 : step2 cfg (step1 cfg sc s) =
        { step1 cfg sc s with
          savedframes := (step1 cfg sc s).savedframes ++ (step1 cfg sc s).framebuffer,
          thresholdframecount := 0, recording := true } := by
      unfold step2; rw [if_pos hstart]
    rw [hs2]
    rw [step1_savedframes, step1_framebuffer] at *
    unfold step3
    split_ifs with happ
    · simp only [hempty, List.nil_append]
      rw [← hlen]
      exact List.take_left _ _
    · simp only [hempty, List.nil_append]
      rw [← hlen]
      exact List.take_length _
  · exfalso
    have hs2 : step2 cfg (step1 cfg sc s) = step1 cfg sc s := by
      unfold step2; rw [if_neg hstart]
    rw [hs2] at h1
    have hidle : (step1 cfg sc s).recording = false := by
      rw [step1_recording]; exact h0
    rw [step3_of_idle _ _ _ hidle, step4_of_idle _ _ _ hidle,
      step5_of_idle _ _ hidle] at h1
    rw [hidle] at h1
    exact Bool.false_ne_true h1

/-- C2 witness: the amended pre-roll property at the first recording start
of a concrete run. -/
theorem C2_preroll_of_empty_witness :
    (initState cfgB [fr 0]).recording = false ∧
    (tickMain cfgB 400 (fr 100) (initState cfgB [fr 0])).recording = true ∧
    (initState cfgB [fr 0]).savedframes = [] ∧
    (initState cfgB [fr 0]).framebuffer.length = cfgB.maxframes ∧
    (tickMain cfgB 400 (fr 100) (initState cfgB [fr 0])).savedframes.take
      cfgB.maxframes = (initState cfgB [fr 0]).framebuffer :=
  ⟨by decide, by decide, by decide, by decide,
   C2_preroll_of_empty cfgB 400 (fr 100) (initState cfgB [fr 0])
     (by decide) (by decide) (by decide) (by decide)⟩

end Secwebcam

namespace Secwebcam

theorem satDiffRow_sub (r1 : List Nat) :
    ∀ r2 : List Nat, r1.length = r2.length →
      (satDiffRow r1 r2 : Int) - (satDiffRow r2 r1 : Int) =
        (r1.sum : Int) - (r2.sum : Int) := by
  induction r1 with
  | nil =>
    intro r2 h
    cases r2 with
    | nil => simp [satDiffRow]
    | cons b t => simp at h
  | cons a t ih =>
    intro r2 h
    cases r2 with
    | nil => simp at h
    | cons b t2 =>
      have ih2 := ih t2 (by simpa using h)
      simp only [satDiffRow, List.zip_cons_cons, List.map_cons, List.sum_cons] at ih2 ⊢
      omega

theorem sumDiffRows_sub (l1 : List (List Nat)) :
    ∀ l2 : List (List Nat), l1.map List.length = l2.map List.length →
      (sumDiffRows l1 l2 : Int) - (sumDiffRows l2 l1 : Int) =
        ((l1.map List.sum).sum : Int) - ((l2.map List.sum).sum : Int) := by
  induction l1 with
  | nil =>
    intro l2 h
    cases l2 with
    | nil => simp [sumDiffRows]
    | cons r t => simp at h
  | cons r t ih =>
    intro l2 h
    cases l2 with
    | nil => simp at h
    | cons r2 t2 =>
      simp only [List.map_cons, List.cons.injEq] at h
      have hrow := satDiffRow_sub r r2 h.1
      have ih2 := ih t2 h.2
      simp only [sumDiffRows, List.zip_cons_cons, List.map_cons, List.sum_cons] at ih2 ⊢
      omega

/-- C3 counterexample: the per-pixel operation is the saturating
cv2.subtract, not an absolute difference, so the score is not symmetric:
on 2-by-2 frames A (one pixel of intensity 10) and B (all zero),
score(A, B) = 10 while score(B, A) = 0. -/
theorem C3_counterexample :
    framediff (Frame.mk [[10, 0], [0, 0]]) (Frame.mk [[0, 0], [0, 0]]) =
      Except.ok 10 ∧
    framediff (Frame.mk [[0, 0], [0, 0]]) (Frame.mk [[10, 0], [0, 0]]) =
      Except.ok 0 ∧
    framediffVal (Frame.mk [[10, 0], [0, 0]]) (Frame.mk [[0, 0], [0, 0]]) ≠
      framediffVal (Frame.mk [[0, 0], [0, 0]]) (Frame.mk [[10, 0], [0, 0]]) :=
  ⟨rfl, rfl, by decide⟩

/-- C3 amended: FrameDiffer.score sums the per-pixel saturating (one-sided)
intensity differences; the sum is not symmetric, and the two orders differ
exactly by the difference of the total intensities of the two frames, so
the score is symmetric only where those totals cancel. -/
theorem C3_saturating_difference (f1 f2 : Frame)
    (h : f1.rows.map List.length = f2.rows.map List.length) :
    (sumDiff f1 f2 : Int) - (sumDiff f2 f1 : Int) =
      (intensitySum f1 : Int) - (intensitySum f2 : Int) := by
  unfold sumDiff intensitySum
  exact sumDiffRows_sub f1.rows f2.rows h

/-- C3 witness: the saturating-difference identity on the concrete frames
of the counterexample. -/
theorem C3_saturating_difference_witness :
    (Frame.mk [[10, 0], [0, 0]]).rows.map List.length =
      (Frame.mk [[0, 0], [0, 0]]).rows.map List.length ∧
    (sumDiff (Frame.mk [[10, 0], [0, 0]]) (Frame.mk [[0, 0], [0, 0]]) : Int) -
      (sumDiff (Frame.mk [[0, 0], [0, 0]]) (Frame.mk [[10, 0], [0, 0]]) : Int) =
      (intensitySum (Frame.mk [[10, 0], [0, 0]]) : Int) -
        (intensitySum (Frame.mk [[0, 0], [0, 0]]) : Int) :=
  ⟨by decide,
   C3_saturating_difference (Frame.mk [[10, 0], [0, 0]])
     (Frame.mk [[0, 0], [0, 0]]) (by decide)⟩

/-- C4: a zero-area frame reaches the division.  The source has no guard:
framediff on a frame of height 0 (and likewise of width 0) runs straight
into the division at line 138 with normalizer 0 and faults there; it does
not raise the InvalidFrameError that the design document requires (the
document itself flags this missing guard as a bug of the source). -/
theorem C4_zero_area_faults :
    framediff (Frame.mk []) (Frame.mk []) =
      Except.error DiffError.divisionFault ∧
    framediff (Frame.mk [[], []]) (Frame.mk [[], []]) =
      Except.error DiffError.divisionFault ∧
    framediff (Frame.mk []) (Frame.mk []) ≠
      Except.error DiffError.invalidFrame := by
  refine ⟨rfl, rfl, ?_⟩
  intro h
  have h2 : DiffError.divisionFault = DiffError.invalidFrame := by
    injection h
  cases h2

/-- C8 counterexample: invoking savetofile on an already-empty recording
buffer crashes (IndexError at savedframes[0].shape, modelled as none); it
is not a state-preserving no-op. -/
theorem C8_counterexample :
    savetofile { recording := false, savedframes := [], quietlen := 0,
                 framebuffer := [fr 0], cooldown := 1, thresholdframecount := 0,
                 flushed := [] } = none ∧
    savetofile { recording := false, savedframes := [], quietlen := 0,
                 framebuffer := [fr 0], cooldown := 1, thresholdframecount := 0,
                 flushed := [] } ≠
      some { recording := false, savedframes := [], quietlen := 0,
             framebuffer := [fr 0], cooldown := 1, thresholdframecount := 0,
             flushed := [] } := by decide

/-- C8 amended: savetofile on an empty recording buffer fails instead of
being a no-op; however, the size-triggered flush of the main loop is never
invoked with an empty buffer, because its guard forces the buffer length
to be at least maxsavedframes ≥ 1, and on such a buffer the flush succeeds
and clears it. -/
theorem C8_flush_guard (cfg : Config) (s : MState)
    (hms : 1 ≤ cfg.maxsavedframes) :
    (s.savedframes = [] → savetofile s = none) ∧
    ((cfg.maxsavedframes : Int) - 1 < (s.savedframes.length : Int) →
      s.savedframes ≠ [] ∧
      flushIfNeeded cfg s =
        some { s with savedframes := [],
                      flushed := s.flushed ++ [s.savedframes] }) := by
  constructor
  · intro h
    unfold savetofile
    rw [h]
  · intro h
    have hne : s.savedframes ≠ [] := by
      intro hnil
      rw [hnil] at h
      simp at h
      omega
    refine ⟨hne, ?_⟩
    unfold flushIfNeeded
    rw [if_pos h]
    exact savetofile_of_ne_nil s hne

/-- C8 witness: the amended flush guard at a concrete state whose buffer
is over the cap. -/
theorem C8_flush_guard_witness :
    1 ≤ (1 : Nat) ∧
    (({ recording := true, savedframes := [fr 0], quietlen := 0,
        framebuffer := [fr 1], cooldown := 0, thresholdframecount := 0,
        flushed := [] } : MState).savedframes = [] →
      savetofile { recording := true, savedframes := [fr 0], quietlen := 0,
                   framebuffer := [fr 1], cooldown := 0,
                   thresholdframecount := 0, flushed := [] } = none) ∧
    ((((1 : Nat) : Int)) - 1 <
        ((({ recording := true, savedframes := [fr 0], quietlen := 0,
             framebuffer := [fr 1], cooldown := 0, thresholdframecount := 0,
             flushed := [] } : MState).savedframes.length : Nat) : Int) →
      ({ recording := true, savedframes := [fr 0], quietlen := 0,
         framebuffer := [fr 1], cooldown := 0, thresholdframecount := 0,
         flushed := [] } : MState).savedframes ≠ [] ∧
      flushIfNeeded
          { maxframes := 1, threshold := 10, thresholdframes := 1,
            maxsavedframes := 1 }
          { recording := true, savedframes := [fr 0], quietlen := 0,
            framebuffer := [fr 1], cooldown := 0, thresholdframecount := 0,
            flushed := [] } =
        some { recording := true, savedframes := [], quietlen := 0,
               framebuffer := [fr 1], cooldown := 0, thresholdframecount := 0,
               flushed := [[fr 0]] }) :=
  ⟨by decide,
   (C8_flush_guard
     { maxframes := 1, threshold := 10, thresholdframes := 1,
       maxsavedframes := 1 }
     { recording := true, savedframes := [fr 0], quietlen := 0,
       framebuffer := [fr 1], cooldown := 0, thresholdframecount := 0,
       flushed := [] } (by decide)).1,
   (C8_flush_guard
     { maxframes := 1, threshold := 10, thresholdframes := 1,
       maxsavedframes := 1 }
     { recording := true, savedframes := [fr 0], quietlen := 0,
       framebuffer := [fr 1], cooldown := 0, thresholdframecount := 0,
       flushed := [] } (by decide)).2⟩

/-- C9 counterexample: on 3-by-2 frames (odd height) with summed
difference 3, the code computes int(3 / (1.5 * 1.0)) = 2, while dividing
by the product of the integer half-dimensions (1 * 1) would give 3. -/
theorem C9_counterexample :
    framediffVal (Frame.mk [[1, 0], [1, 0], [1, 0]])
      (Frame.mk [[0, 0], [0, 0], [0, 0]]) = 2 ∧
    framediffClaimed (Frame.mk [[1, 0], [1, 0], [1, 0]])
      (Frame.mk [[0, 0], [0, 0], [0, 0]]) = 3 ∧
    framediffVal (Frame.mk [[1, 0], [1, 0], [1, 0]])
        (Frame.mk [[0, 0], [0, 0], [0, 0]]) ≠
      framediffClaimed (Frame.mk [[1, 0], [1, 0], [1, 0]])
        (Frame.mk [[0, 0], [0, 0], [0, 0]]) := by decide

/-- C9 amended: the score divides the summed difference by the real
product (h/2)*(w/2) and truncates, i.e. it equals floor of
4*sum/(h*w); only when both dimensions are even does this coincide with
truncating division by the product of the integer half-dimensions. -/
theorem C9_even_dims (f1 f2 : Frame) (hh : f1.h % 2 = 0) (hw : f1.w % 2 = 0)
    (hh0 : 0 < f1.h) (hw0 : 0 < f1.w) :
    framediffVal f1 f2 = sumDiff f1 f2 / ((f1.h / 2) * (f1.w / 2)) := by
  unfold framediffVal
  have h1 : f1.h * f1.w = 4 * ((f1.h / 2) * (f1.w / 2)) := by
    have e1 : f1.h = 2 * (f1.h / 2) := by omega
    have e2 : f1.w = 2 * (f1.w / 2) := by omega
    calc f1.h * f1.w = 2 * (f1.h / 2) * (2 * (f1.w / 2)) := by rw [← e1, ← e2]
      _ = 4 * (f1.h / 2 * (f1.w / 2)) := by ring
  rw [h1]
  exact Nat.mul_div_mul_left _ _ (by norm_num)

/-- C9 witness: on even-dimension frames the two divisions agree. -/
theorem C9_even_dims_witness :
    (Frame.mk [[5, 0], [0, 0]]).h % 2 = 0 ∧
    (Frame.mk [[5, 0], [0, 0]]).w % 2 = 0 ∧
    0 < (Frame.mk [[5, 0], [0, 0]]).h ∧
    0 < (Frame.mk [[5, 0], [0, 0]]).w ∧
    framediffVal (Frame.mk [[5, 0], [0, 0]]) (Frame.mk [[0, 0], [0, 0]]) =
      sumDiff (Frame.mk [[5, 0], [0, 0]]) (Frame.mk [[0, 0], [0, 0]]) /
        (((Frame.mk [[5, 0], [0, 0]]).h / 2) *
          ((Frame.mk [[5, 0], [0, 0]]).w / 2)) :=
  ⟨by decide, by decide, by decide, by decide,
   C9_even_dims (Frame.mk [[5, 0], [0, 0]]) (Frame.mk [[0, 0], [0, 0]])
     (by decide) (by decide) (by decide) (by decide)⟩

end Secwebcam

namespace Secwebcam

theorem step4_quiet_inc (cfg : Config) (sc : Nat) (s : MState)
    (h1 : s.recording = true) (h2 : sc < cfg.threshold) :
    step4 cfg sc s = { s with quietlen := s.quietlen + 1 } := by
  unfold step4
  rw [if_neg, if_pos ⟨h1, h2⟩]
  rintro ⟨-, hle, -⟩
  omega

theorem step4_quiet_hi (cfg : Config) (sc : Nat) (s : MState)
    (h1 : s.recording = true) (h2 : cfg.threshold ≤ sc) :
    (step4 cfg sc s).quietlen = 0 := by
  unfold step4
  split_ifs with ha hb
  · rfl
  · exact absurd hb.2 (by omega)
  · have h3 : ¬ 0 < s.quietlen := fun h => ha ⟨h1, h2, h⟩
    omega

theorem step5_stop (cfg : Config) (s : MState)
    (h1 : s.recording = true) (h2 : cfg.maxframes ≤ s.quietlen) :
    step5 cfg s = { s with recording := false, cooldown := 0 } := by
  unfold step5
  rw [if_pos ⟨by omega, h1⟩]

theorem step6_adv (cfg : Config) (s : MState)
    (h1 : s.recording = false) (h2 : s.cooldown < cfg.maxframes) :
    step6 cfg s = { s with cooldown := s.cooldown + 1 } := by
  unfold step6
  rw [if_pos ⟨h1, h2⟩]

theorem step1_count_reset (cfg : Config) (sc : Nat) (s : MState)
    (h1 : s.recording = false) (h2 : sc < cfg.threshold) :
    step1 cfg sc s = { s with thresholdframecount := 0 } := by
  unfold step1
  rw [if_neg, if_pos ⟨h1, h2⟩]
  rintro ⟨-, -, hle⟩
  omega

theorem step1_count_inc (cfg : Config) (sc : Nat) (s : MState)
    (h1 : s.recording = false) (h2 : s.thresholdframecount < cfg.thresholdframes)
    (h3 : cfg.threshold ≤ sc) :
    step1 cfg sc s = { s with thresholdframecount := s.thresholdframecount + 1 } := by
  unfold step1
  rw [if_pos ⟨h1, h2, h3⟩]

theorem tickT_recording (cfg : Config) (sc : Nat) (f : Frame) (s : MState) :
    (tickT cfg sc f s).recording = (afterStop cfg sc f s).recording := by
  unfold tickT tickMain afterStop
  rw [flushTotal_recording, step7_recording, step6_recording]

theorem tickT_quietlen (cfg : Config) (sc : Nat) (f : Frame) (s : MState) :
    (tickT cfg sc f s).quietlen = (afterStop cfg sc f s).quietlen := by
  unfold tickT tickMain afterStop
  rw [flushTotal_quietlen, step7_quietlen, step6_quietlen]

theorem tickT_cooldown (cfg : Config) (sc : Nat) (f : Frame) (s : MState) :
    (tickT cfg sc f s).cooldown = (step6 cfg (afterStop cfg sc f s)).cooldown := by
  unfold tickT tickMain afterStop
  rw [flushTotal_cooldown, step7_cooldown]

theorem tickT_thresholdframecount (cfg : Config) (sc : Nat) (f : Frame) (s : MState) :
    (tickT cfg sc f s).thresholdframecount =
      (afterStop cfg sc f s).thresholdframecount := by
  unfold tickT tickMain afterStop
  rw [flushTotal_thresholdframecount, step7_thresholdframecount,
    step6_thresholdframecount]

theorem tickMain_recording (cfg : Config) (sc : Nat) (f : Frame) (s : MState) :
    (tickMain cfg sc f s).recording = (afterStop cfg sc f s).recording := by
  unfold tickMain afterStop
  rw [step7_recording, step6_recording]

theorem tickMain_quietlen (cfg : Config) (sc : Nat) (f : Frame) (s : MState) :
    (tickMain cfg sc f s).quietlen = (afterStop cfg sc f s).quietlen := by
  unfold tickMain afterStop
  rw [step7_quietlen, step6_quietlen]

theorem tickMain_savedframes (cfg : Config) (sc : Nat) (f : Frame) (s : MState) :
    (tickMain cfg sc f s).savedframes = (afterStop cfg sc f s).savedframes := by
  unfold tickMain afterStop
  rw [step7_savedframes, step6_savedframes]

end Secwebcam

namespace Secwebcam

theorem tickT_rec_char (cfg : Config) (sc : Nat) (f : Frame) (s : MState)
    (hm : 1 ≤ cfg.maxframes) (hrec : s.recording = true)
    (hq : s.quietlen < cfg.maxframes) :
    ((tickT cfg sc f s).recording = false ↔
      sc < cfg.threshold ∧ s.quietlen + 1 = cfg.maxframes) ∧
    ((tickT cfg sc f s).recording = false →
      (afterStop cfg sc f s).cooldown = 0 ∧
      (tickT cfg sc f s).quietlen = cfg.maxframes ∧
      (tickT cfg sc f s).cooldown = 1) := by
  have e12 : step2 cfg (step1 cfg sc s) = s := by
    rw [step1_of_rec cfg sc s hrec, step2_of_rec cfg s hrec]
  have eAS : afterStop cfg sc f s = step5 cfg (step4 cfg sc (step3 cfg f s)) := by
    unfold afterStop
    rw [e12]
  have hrec3 : (step3 cfg f s).recording = true := by
    rw [step3_recording]; exact hrec
  have hq3 : (step3 cfg f s).quietlen = s.quietlen := step3_quietlen cfg f s
  by_cases hsc : sc < cfg.threshold
  · have e4 : step4 cfg sc (step3 cfg f s) =
        { step3 cfg f s with quietlen := (step3 cfg f s).quietlen + 1 } :=
      step4_quiet_inc cfg sc _ hrec3 hsc
    by_cases hq1 : s.quietlen + 1 = cfg.maxframes
    · have e5 : afterStop cfg sc f s =
          { step3 cfg f s with quietlen := (step3 cfg f s).quietlen + 1,
                               recording := false, cooldown := 0 } := by
        rw [eAS, e4]
        exact step5_stop cfg _ hrec3 (by simp [hq3]; omega)
      have hASrec : (afterStop cfg sc f s).recording = false := by
        rw [e5]
      have hASq : (afterStop cfg sc f s).quietlen = cfg.maxframes := by
        rw [e5]; simp [hq3]; omega
      have hAScd : (afterStop cfg sc f s).cooldown = 0 := by
        rw [e5]
      constructor
      · rw [tickT_recording, hASrec]
        exact iff_of_true rfl ⟨hsc, hq1⟩
      · intro _
        refine ⟨hAScd, ?_, ?_⟩
        · rw [tickT_quietlen, hASq]
        · rw [tickT_cooldown, step6_adv cfg _ hASrec (by rw [hAScd]; omega)]
          rw [hAScd]
    · have e5 : afterStop cfg sc f s =
          { step3 cfg f s with quietlen := (step3 cfg f s).quietlen + 1 } := by
        rw [eAS, e4]
        exact step5_of_quiet cfg _ (by simp [hq3]; omega)
      have hASrec : (afterStop cfg sc f s).recording = true := by
        rw [e5]; exact hrec3
      constructor
      · rw [tickT_recording, hASrec]
        exact iff_of_false (by simp) (by intro h; exact hq1 h.2)
      · intro h
        rw [tickT_recording, hASrec] at h
        cases h
  · have hq4 : (step4 cfg sc (step3 cfg f s)).quietlen = 0 :=
      step4_quiet_hi cfg sc _ hrec3 (by omega)
    have hrec4 : (step4 cfg sc (step3 cfg f s)).recording = true := by
      rw [step4_recording]; exact hrec3
    have e5 : afterStop cfg sc f s = step4 cfg sc (step3 cfg f s) := by
      rw [eAS]
      exact step5_of_quiet cfg _ (by rw [hq4]; omega)
    have hASrec : (afterStop cfg sc f s).recording = true := by
      rw [e5]; exact hrec4
    constructor
    · rw [tickT_recording, hASrec]
      exact iff_of_false (by simp) (by intro h; exact hsc h.1)
    · intro h
      rw [tickT_recording, hASrec] at h
      cases h

end Secwebcam

namespace Secwebcam

/-- C5: while recording (with the ring-buffer quiet invariant quietlen <
maxframes), the tick stops the recording exactly when the score is below
threshold and the incremented quiet counter reaches maxframes, not before;
on that tick the stop rule sets cooldown to 0 (the subsequent same-tick
cooldown-advance rule then moves it to 1), and the quiet counter ends the
tick at maxframes. -/
theorem C5_stop_exact (cfg : Config) (sc : Nat) (f : Frame) (s : MState)
    (hm : 1 ≤ cfg.maxframes) (hms : 1 ≤ cfg.maxsavedframes)
    (hrec : s.recording = true) (hq : s.quietlen < cfg.maxframes) :
    tickScore cfg sc f s = some (tickT cfg sc f s) ∧
    ((tickT cfg sc f s).recording = false ↔
      sc < cfg.threshold ∧ s.quietlen + 1 = cfg.maxframes) ∧
    ((tickT cfg sc f s).recording = false →
      (afterStop cfg sc f s).cooldown = 0 ∧
      (tickT cfg sc f s).quietlen = cfg.maxframes ∧
      (tickT cfg sc f s).cooldown = 1) := by
  refine ⟨tickScore_eq cfg sc f s hms, ?_, ?_⟩
  · exact (tickT_rec_char cfg sc f s hm hrec hq).1
  · exact (tickT_rec_char cfg sc f s hm hrec hq).2

/-- C7: the recording buffer is handed to the sink and cleared at the end
of a tick exactly when its (post-update) length has reached maxsavedframes,
and the flush decision reads only the buffer length, not the recording
state, so it applies in Idle and Recording states alike. -/
theorem C7_flush_iff (cfg : Config) (sc : Nat) (f : Frame) (s : MState)
    (hms : 1 ≤ cfg.maxsavedframes) :
    (cfg.maxsavedframes ≤ (tickMain cfg sc f s).savedframes.length →
      tickScore cfg sc f s =
        some { tickMain cfg sc f s with
               savedframes := [],
               flushed := (tickMain cfg sc f s).flushed ++
                 [(tickMain cfg sc f s).savedframes] }) ∧
    ((tickMain cfg sc f s).savedframes.length < cfg.maxsavedframes →
      tickScore cfg sc f s = some (tickMain cfg sc f s)) := by
  constructor
  · intro h
    unfold tickScore flushIfNeeded
    rw [if_pos (by omega)]
    refine savetofile_of_ne_nil _ ?_
    intro hnil
    rw [hnil] at h
    simp at h
    omega
  · intro h
    unfold tickScore flushIfNeeded
    rw [if_neg (by omega)]

end Secwebcam

namespace Secwebcam

theorem step2_fire (cfg : Config) (t : MState) (h1 : t.recording = false)
    (h2 : cfg.maxframes ≤ t.cooldown)
    (h3 : cfg.thresholdframes ≤ t.thresholdframecount) :
    step2 cfg t = { t with savedframes := t.savedframes ++ t.framebuffer,
                           thresholdframecount := 0, recording := true } := by
  unfold step2
  rw [if_pos ⟨h1, h2, h3⟩]

theorem nostart_tick (cfg : Config) (sc : Nat) (f : Frame) (s : MState)
    (hrec : s.recording = false)
    (hns : ¬(cfg.maxframes ≤ s.cooldown ∧
        cfg.thresholdframes ≤ (step1 cfg sc s).thresholdframecount)) :
    tickMain cfg sc f s = step7 f (step6 cfg (step1 cfg sc s)) := by
  have h1rec : (step1 cfg sc s).recording = false := by
    rw [step1_recording]; exact hrec
  have e2 : step2 cfg (step1 cfg sc s) = step1 cfg sc s := by
    unfold step2
    rw [if_neg]
    rintro ⟨-, hcool, hcnt⟩
    rw [step1_cooldown] at hcool
    exact hns ⟨hcool, hcnt⟩
  unfold tickMain
  rw [e2, step3_of_idle _ _ _ h1rec, step4_of_idle _ _ _ h1rec,
    step5_of_idle _ _ h1rec]

theorem start_tick_rec (cfg : Config) (sc : Nat) (f : Frame) (s : MState)
    (hm : 1 ≤ cfg.maxframes) (hrec : s.recording = false)
    (hcool : cfg.maxframes ≤ s.cooldown)
    (hcnt : cfg.thresholdframes ≤ (step1 cfg sc s).thresholdframecount)
    (hsc : cfg.threshold ≤ sc) :
    (tickT cfg sc f s).recording = true ∧ (tickT cfg sc f s).quietlen = 0 ∧
    (tickMain cfg sc f s).recording = true := by
  have h1rec : (step1 cfg sc s).recording = false := by
    rw [step1_recording]; exact hrec
  have e2 := step2_fire cfg (step1 cfg sc s) h1rec
    (by rw [step1_cooldown]; exact hcool) hcnt
  have hrec2 : (step2 cfg (step1 cfg sc s)).recording = true := by rw [e2]
  have hrec3 : (step3 cfg f (step2 cfg (step1 cfg sc s))).recording = true := by
    rw [step3_recording]; exact hrec2
  have hq4 : (step4 cfg sc (step3 cfg f (step2 cfg (step1 cfg sc s)))).quietlen = 0 :=
    step4_quiet_hi cfg sc _ hrec3 hsc
  have hrec4 :
      (step4 cfg sc (step3 cfg f (step2 cfg (step1 cfg sc s)))).recording = true := by
    rw [step4_recording]; exact hrec3
  have eAS : afterStop cfg sc f s =
      step4 cfg sc (step3 cfg f (step2 cfg (step1 cfg sc s))) := by
    unfold afterStop
    exact step5_of_quiet cfg _ (by rw [hq4]; omega)
  refine ⟨?_, ?_, ?_⟩
  · rw [tickT_recording, eAS]; exact hrec4
  · rw [tickT_quietlen, eAS]; exact hq4
  · rw [tickMain_recording, eAS]; exact hrec4

/-- C10: the quiet counter is reset only by an above-threshold score while
recording.  Concretely: (a) a tick that stops a recording leaves quietlen
equal to maxframes; (b) a tick that begins and ends not recording leaves
quietlen unchanged, so it still equals maxframes at the next start; and
(c) on a start tick entered with quietlen = maxframes the append guard
fails, so only the ring-buffer pre-roll is spliced in (the triggering
frame is not appended) and quietlen is then reset to 0 by the
above-threshold rule, recording being active by that point. -/
theorem C10_quiet_persistence (cfg : Config) (hm : 1 ≤ cfg.maxframes)
    (hk : 1 ≤ cfg.thresholdframes) (hms : 1 ≤ cfg.maxsavedframes) :
    (∀ (sc : Nat) (f : Frame) (s : MState), s.recording = true →
      s.quietlen < cfg.maxframes → (tickT cfg sc f s).recording = false →
      (tickT cfg sc f s).quietlen = cfg.maxframes) ∧
    (∀ (sc : Nat) (f : Frame) (s : MState), s.recording = false →
      (tickT cfg sc f s).recording = false →
      (tickT cfg sc f s).quietlen = s.quietlen) ∧
    (∀ (sc : Nat) (f : Frame) (s : MState), s.recording = false →
      s.quietlen = cfg.maxframes → (tickMain cfg sc f s).recording = true →
      (tickMain cfg sc f s).savedframes = s.savedframes ++ s.framebuffer ∧
      (tickMain cfg sc f s).quietlen = 0) := by
  refine ⟨?_, ?_, ?_⟩
  · intro sc f s hrec hq hstop
    exact ((tickT_rec_char cfg sc f s hm hrec hq).2 hstop).2.1
  · intro sc f s hrec hnot
    by_cases hst : cfg.maxframes ≤ s.cooldown ∧
        cfg.thresholdframes ≤ (step1 cfg sc s).thresholdframecount
    · by_cases hsc : sc < cfg.threshold
      · have e1 : step1 cfg sc s = { s with thresholdframecount := 0 } :=
          step1_count_reset cfg sc s hrec hsc
        rw [e1] at hst
        exact absurd hst.2 (by simp; omega)
      · have hrec2 :=
          (start_tick_rec cfg sc f s hm hrec hst.1 hst.2 (by omega)).1
        rw [hrec2] at hnot
        cases hnot
    · have e := nostart_tick cfg sc f s hrec hst
      have eq : (tickT cfg sc f s).quietlen = (step1 cfg sc s).quietlen := by
        unfold tickT
        rw [e, flushTotal_quietlen, step7_quietlen, step6_quietlen]
      rw [eq, step1_quietlen]
  · intro sc f s hrec hq hstart
    by_cases hst : cfg.maxframes ≤ s.cooldown ∧
        cfg.thresholdframes ≤ (step1 cfg sc s).thresholdframecount
    · by_cases hsc : sc < cfg.threshold
      · have e1 : step1 cfg sc s = { s with thresholdframecount := 0 } :=
          step1_count_reset cfg sc s hrec hsc
        rw [e1] at hst
        exact absurd hst.2 (by simp; omega)
      · have h1rec : (step1 cfg sc s).recording = false := by
          rw [step1_recording]; exact hrec
        have e2 := step2_fire cfg (step1 cfg sc s) h1rec
          (by rw [step1_cooldown]; exact hst.1) hst.2
        have hrec2 : (step2 cfg (step1 cfg sc s)).recording = true := by rw [e2]
        have hq2 : (step2 cfg (step1 cfg sc s)).quietlen = cfg.maxframes := by
          rw [step2_quietlen, step1_quietlen]; exact hq
        have e3 : step3 cfg f (step2 cfg (step1 cfg sc s)) =
            step2 cfg (step1 cfg sc s) := by
          unfold step3
          rw [if_neg]
          rintro ⟨-, hlt⟩
          rw [hq2] at hlt
          omega
        have hrec3 : (step3 cfg f (step2 cfg (step1 cfg sc s))).recording = true := by
          rw [e3]; exact hrec2
        have hq4 :
            (step4 cfg sc (step3 cfg f (step2 cfg (step1 cfg sc s)))).quietlen = 0 :=
          step4_quiet_hi cfg sc _ hrec3 (by omega)
        constructor
        · rw [tickMain_savedframes]
          unfold afterStop
          rw [step5_savedframes, step4_savedframes, e3, e2]
          simp only [step1_savedframes, step1_framebuffer]
        · rw [tickMain_quietlen]
          unfold afterStop
          rw [step5_quietlen]
          exact hq4
    · have e := nostart_tick cfg sc f s hrec hst
      have hrec2 : (tickMain cfg sc f s).recording = false := by
        rw [e, step7_recording, step6_recording, step1_recording]
        exact hrec
      rw [hrec2] at hstart
      cases hstart

end Secwebcam

namespace Secwebcam

theorem tick_hot_pre (cfg : Config) (sc : Nat) (f : Frame) (s : MState)
    (hrec : s.recording = false) (hcool : cfg.maxframes ≤ s.cooldown)
    (hcnt : s.thresholdframecount + 1 < cfg.thresholdframes)
    (hsc : cfg.threshold ≤ sc) :
    (tickT cfg sc f s).recording = false ∧
    (tickT cfg sc f s).thresholdframecount = s.thresholdframecount + 1 ∧
    (tickT cfg sc f s).cooldown = s.cooldown := by
  have e1 : step1 cfg sc s =
      { s with thresholdframecount := s.thresholdframecount + 1 } :=
    step1_count_inc cfg sc s hrec (by omega) hsc
  have hns : ¬(cfg.maxframes ≤ s.cooldown ∧
      cfg.thresholdframes ≤ (step1 cfg sc s).thresholdframecount) := by
    rintro ⟨-, h2⟩
    rw [e1] at h2
    simp at h2
    omega
  have e := nostart_tick cfg sc f s hrec hns
  have h1rec : (step1 cfg sc s).recording = false := by
    rw [step1_recording]; exact hrec
  have e6 : step6 cfg (step1 cfg sc s) = step1 cfg sc s :=
    step6_of_cool cfg _ (by rw [step1_cooldown]; exact hcool)
  refine ⟨?_, ?_, ?_⟩
  · unfold tickT
    rw [e, flushTotal_recording, step7_recording, e6, h1rec]
  · unfold tickT
    rw [e, flushTotal_thresholdframecount, step7_thresholdframecount, e6, e1]
  · unfold tickT
    rw [e, flushTotal_cooldown, step7_cooldown, e6, step1_cooldown]

theorem runT_hot_pre (cfg : Config) :
    ∀ (l : List (Nat × Frame)) (s : MState),
      s.recording = false → cfg.maxframes ≤ s.cooldown →
      s.thresholdframecount + l.length < cfg.thresholdframes →
      (∀ p ∈ l, cfg.threshold ≤ p.1) →
      (runT cfg s l).recording = false ∧
      (runT cfg s l).thresholdframecount = s.thresholdframecount + l.length ∧
      (runT cfg s l).cooldown = s.cooldown := by
  intro l
  induction l with
  | nil =>
    intro s h1 h2 h3 h4
    exact ⟨h1, by simp [runT], by simp [runT]⟩
  | cons p t ih =>
    intro s h1 h2 h3 h4
    have hp : cfg.threshold ≤ p.1 := h4 p (List.mem_cons_self p t)
    have hlen : (p :: t).length = t.length + 1 := by simp
    have ht := tick_hot_pre cfg p.1 p.2 s h1 h2 (by rw [hlen] at h3; omega) hp
    have ih2 := ih (tickT cfg p.1 p.2 s) ht.1
      (by rw [ht.2.2]; exact h2)
      (by rw [ht.2.1]; rw [hlen] at h3; omega)
      (fun q hq => h4 q (List.mem_cons_of_mem p hq))
    unfold runT
    refine ⟨ih2.1, ?_, by rw [ih2.2.2, ht.2.2]⟩
    rw [ih2.2.1, ht.2.1, hlen]
    omega

theorem runT_append (cfg : Config) :
    ∀ (l1 l2 : List (Nat × Frame)) (s : MState),
      runT cfg s (l1 ++ l2) = runT cfg (runT cfg s l1) l2 := by
  intro l1
  induction l1 with
  | nil => intro l2 s; rfl
  | cons p t ih =>
    intro l2 s
    rw [List.cons_append]
    show runT cfg (tickT cfg p.1 p.2 s) (t ++ l2) =
      runT cfg (runT cfg (tickT cfg p.1 p.2 s) t) l2
    exact ih l2 _

/-- C6: with thresholdframes = k, from an idle state with
thresholdframecount = 0 and cooldown at least maxframes, a window of
consecutive above-threshold scores starts a recording exactly on the k-th
tick and never earlier (after j < k ticks the machine is still idle with
the counter at j), and any below-threshold tick while not recording resets
the counter to 0 and cannot start a recording. -/
theorem C6_start_exact (cfg : Config) (s : MState)
    (scores : List (Nat × Frame))
    (hk : 1 ≤ cfg.thresholdframes) (hm : 1 ≤ cfg.maxframes)
    (hms : 1 ≤ cfg.maxsavedframes)
    (hrec : s.recording = false) (hcnt : s.thresholdframecount = 0)
    (hcool : cfg.maxframes ≤ s.cooldown)
    (hall : ∀ p ∈ scores, cfg.threshold ≤ p.1) :
    runScores cfg s scores = some (runT cfg s scores) ∧
    (scores.length < cfg.thresholdframes →
      (runT cfg s scores).recording = false ∧
      (runT cfg s scores).thresholdframecount = scores.length) ∧
    (scores.length = cfg.thresholdframes →
      (runT cfg s scores).recording = true) ∧
    (∀ (t : MState) (sc : Nat) (f : Frame), t.recording = false →
      sc < cfg.threshold →
      (tickT cfg sc f t).recording = false ∧
      (tickT cfg sc f t).thresholdframecount = 0) := by
  refine ⟨runScores_eq cfg hms scores s, ?_, ?_, ?_⟩
  · intro hlt
    have h := runT_hot_pre cfg scores s hrec hcool (by omega) hall
    exact ⟨h.1, by rw [h.2.1, hcnt]; omega⟩
  · intro heq
    have hne : scores ≠ [] := by
      intro h
      rw [h] at heq
      simp at heq
      omega
    have hsplit := List.dropLast_append_getLast hne
    have hlen : scores.dropLast.length = cfg.thresholdframes - 1 := by
      rw [List.length_dropLast, heq]
    have hpre := runT_hot_pre cfg scores.dropLast s hrec hcool
      (by rw [hcnt, hlen]; omega)
      (fun p hp => hall p (List.dropLast_subset scores hp))
    have hq1 : cfg.threshold ≤ (scores.getLast hne).1 :=
      hall _ (List.getLast_mem hne)
    have hrun : runT cfg s scores =
        tickT cfg (scores.getLast hne).1 (scores.getLast hne).2
          (runT cfg s scores.dropLast) := by
      conv =>
        lhs
        rw [← hsplit]
      rw [runT_append]
      rfl
    rw [hrun]
    have hcnt1 : (step1 cfg (scores.getLast hne).1
        (runT cfg s scores.dropLast)).thresholdframecount =
        cfg.thresholdframes := by
      rw [step1_count_inc cfg _ _ hpre.1 (by rw [hpre.2.1, hcnt, hlen]; omega) hq1]
      simp only []
      rw [hpre.2.1, hcnt, hlen]
      omega
    exact (start_tick_rec cfg _ _ _ hm hpre.1
      (by rw [hpre.2.2]; exact hcool) (by rw [hcnt1]) hq1).1
  · intro t sc f ht hsc
    have e1 : step1 cfg sc t = { t with thresholdframecount := 0 } :=
      step1_count_reset cfg sc t ht hsc
    have hns : ¬(cfg.maxframes ≤ t.cooldown ∧
        cfg.thresholdframes ≤ (step1 cfg sc t).thresholdframecount) := by
      rintro ⟨-, h2⟩
      rw [e1] at h2
      simp at h2
      omega
    have e := nostart_tick cfg sc f t ht hns
    constructor
    · unfold tickT
      rw [e, flushTotal_recording, step7_recording, step6_recording,
        step1_recording]
      exact ht
    · unfold tickT
      rw [e, flushTotal_thresholdframecount, step7_thresholdframecount,
        step6_thresholdframecount, e1]

end Secwebcam

namespace Secwebcam

/-- C5 witness: the stop characterization applied at a concrete recording
state one quiet tick away from the stop threshold. -/
theorem C5_stop_exact_witness :
    1 ≤ cfgB.maxframes ∧ 1 ≤ cfgB.maxsavedframes ∧
    sRec.recording = true ∧ sRec.quietlen < cfgB.maxframes ∧
    (tickScore cfgB 0 (fr 0) sRec = some (tickT cfgB 0 (fr 0) sRec) ∧
    ((tickT cfgB 0 (fr 0) sRec).recording = false ↔
      0 < cfgB.threshold ∧ sRec.quietlen + 1 = cfgB.maxframes) ∧
    ((tickT cfgB 0 (fr 0) sRec).recording = false →
      (afterStop cfgB 0 (fr 0) sRec).cooldown = 0 ∧
      (tickT cfgB 0 (fr 0) sRec).quietlen = cfgB.maxframes ∧
      (tickT cfgB 0 (fr 0) sRec).cooldown = 1)) :=
  ⟨by decide, by decide, by decide, by decide,
   C5_stop_exact cfgB 0 (fr 0) sRec (by decide) (by decide) (by decide)
     (by decide)⟩

/-- C6 witness: with one required threshold frame, a single above-threshold
tick from the pre-filled initial state starts recording. -/
theorem C6_start_exact_witness :
    1 ≤ cfgA.thresholdframes ∧ 1 ≤ cfgA.maxframes ∧ 1 ≤ cfgA.maxsavedframes ∧
    (initState cfgA [fr 0, fr 1]).recording = false ∧
    (initState cfgA [fr 0, fr 1]).thresholdframecount = 0 ∧
    cfgA.maxframes ≤ (initState cfgA [fr 0, fr 1]).cooldown ∧
    (∀ p ∈ [((12 : Nat), fr 5)], cfgA.threshold ≤ p.1) ∧
    (runScores cfgA (initState cfgA [fr 0, fr 1]) [((12 : Nat), fr 5)] =
      some (runT cfgA (initState cfgA [fr 0, fr 1]) [((12 : Nat), fr 5)]) ∧
    (([((12 : Nat), fr 5)] : List (Nat × Frame)).length < cfgA.thresholdframes →
      (runT cfgA (initState cfgA [fr 0, fr 1]) [((12 : Nat), fr 5)]).recording =
        false ∧
      (runT cfgA (initState cfgA [fr 0, fr 1])
        [((12 : Nat), fr 5)]).thresholdframecount =
        ([((12 : Nat), fr 5)] : List (Nat × Frame)).length) ∧
    (([((12 : Nat), fr 5)] : List (Nat × Frame)).length = cfgA.thresholdframes →
      (runT cfgA (initState cfgA [fr 0, fr 1]) [((12 : Nat), fr 5)]).recording =
        true) ∧
    (∀ (t : MState) (sc : Nat) (f : Frame), t.recording = false →
      sc < cfgA.threshold →
      (tickT cfgA sc f t).recording = false ∧
      (tickT cfgA sc f t).thresholdframecount = 0)) :=
  ⟨by decide, by decide, by decide, by decide, by decide, by decide, by decide,
   C6_start_exact cfgA (initState cfgA [fr 0, fr 1]) [((12 : Nat), fr 5)]
     (by decide) (by decide) (by decide) (by decide) (by decide) (by decide)
     (by decide)⟩

/-- C7 witness: the flush characterization at a tick whose buffer reaches
the cap maxsavedframes = 1. -/
theorem C7_flush_iff_witness :
    1 ≤ cfgC.maxsavedframes ∧
    ((cfgC.maxsavedframes ≤ (tickMain cfgC 0 (fr 3) sRec2).savedframes.length →
      tickScore cfgC 0 (fr 3) sRec2 =
        some { tickMain cfgC 0 (fr 3) sRec2 with
               savedframes := [],
               flushed := (tickMain cfgC 0 (fr 3) sRec2).flushed ++
                 [(tickMain cfgC 0 (fr 3) sRec2).savedframes] }) ∧
    ((tickMain cfgC 0 (fr 3) sRec2).savedframes.length < cfgC.maxsavedframes →
      tickScore cfgC 0 (fr 3) sRec2 = some (tickMain cfgC 0 (fr 3) sRec2))) :=
  ⟨by decide, C7_flush_iff cfgC 0 (fr 3) sRec2 (by decide)⟩

/-- C10 witness: the quiet-counter persistence properties instantiated at
the one-frame-buffer configuration. -/
theorem C10_quiet_persistence_witness :
    1 ≤ cfgB.maxframes ∧ 1 ≤ cfgB.thresholdframes ∧ 1 ≤ cfgB.maxsavedframes ∧
    ((∀ (sc : Nat) (f : Frame) (s : MState), s.recording = true →
      s.quietlen < cfgB.maxframes → (tickT cfgB sc f s).recording = false →
      (tickT cfgB sc f s).quietlen = cfgB.maxframes) ∧
    (∀ (sc : Nat) (f : Frame) (s : MState), s.recording = false →
      (tickT cfgB sc f s).recording = false →
      (tickT cfgB sc f s).quietlen = s.quietlen) ∧
    (∀ (sc : Nat) (f : Frame) (s : MState), s.recording = false →
      s.quietlen = cfgB.maxframes → (tickMain cfgB sc f s).recording = true →
      (tickMain cfgB sc f s).savedframes = s.savedframes ++ s.framebuffer ∧
      (tickMain cfgB sc f s).quietlen = 0)) :=
  ⟨by decide, by decide, by decide,
   C10_quiet_persistence cfgB (by decide) (by decide) (by decide)⟩

end Secwebcam
